import Mathlib

/-!
Verification of the horror-movie recommendation and rating-prediction engine.

This file gives a shallow embedding, in Lean 4, of the core logic of the
repository (src/core/prediction_service.py and
src/core/recommendation_service.py) and proves the specified properties.

Modelling conventions:
- Python dict records become Lean structures with typed fields; an optional
  field (one read with dict.get) becomes an Option field.
- Python float ratings and scores become rationals.
- The external TMDB client is an oracle: a structure of pure functions
  supplied as a parameter.
- Randomness (random.shuffle, random.choice) is an injected function
  parameter; theorems that need it assume only that it returns elements of
  its input.
- Python round(x, 1) is modelled by round1 below; str.lower().strip() by
  normTitle; the substring test `k in s` by strContains.
-/

namespace HorrorGen

section

attribute [local semireducible] Rat.add Rat.mul Rat.inv Rat.sub

/-- A history item / watched movie record, as used by the prediction and
recommendation services (title, year, optional rating, genres,
optional vote_average read with dict.get default 0). -/
structure Movie where
  title : String
  year : String := ""
  rating : Option ℚ := none
  genres : List String := []
  vote_average : Option ℚ := none
deriving DecidableEq

/-- A catalog candidate as returned by the TMDB client (search, recommend,
similar, discover results).  genre_names and mood_score model the keys the
service adds to the dict in place. -/
structure Candidate where
  id : Nat := 0
  title : String := ""
  release_date : String := ""
  genre_ids : List Nat := []
  vote_average : Option ℚ := none
  overview : String := ""
  genre_names : List String := []
  mood_score : Nat := 0
deriving DecidableEq

/-- A prediction record emitted by get_predictions_for_unrated_movies. -/
structure Prediction where
  title : String
  year : String
  predicted_rating : ℚ
  confidence : ℚ
  actual_tmdb_rating : ℚ
  genres : List String
deriving DecidableEq

/-- Size of the set intersection of two genre lists:
len(set(a).intersection(set(b))) in the source. -/
def genreOverlapCount (a b : List String) : Nat :=
  ((a.dedup).filter (fun g => b.contains g)).length

/-- Python round to the nearest integer: ties go to the even integer
(banker rounding). -/
def pyRound (q : ℚ) : ℤ :=
  if q - (Rat.floor q : ℚ) < 1/2 then Rat.floor q
  else if (1/2 : ℚ) < q - (Rat.floor q : ℚ) then Rat.floor q + 1
  else if Rat.floor q % 2 = 0 then Rat.floor q else Rat.floor q + 1

/-- Python round(x, 1): round to one decimal place. -/
def round1 (q : ℚ) : ℚ := ((pyRound (10 * q) : ℤ) : ℚ) / 10

/-- The similar_ratings list built by the loop in predict_rating: ratings of
history items whose rating is present and whose genre set overlaps the
target movie genres. -/
def similarRatings (movieGenres : List String) (rated_movies : List Movie) : List ℚ :=
  rated_movies.filterMap fun rm =>
    match rm.rating with
    | none => none
    | some r => if 0 < genreOverlapCount movieGenres rm.genres then some r else none

/-- all_ratings in the fallback branch of predict_rating: every present
rating in the history. -/
def allRatings (rated_movies : List Movie) : List ℚ :=
  rated_movies.filterMap (fun m => m.rating)

/-- RatingPredictionService.predict_rating
(src/core/prediction_service.py, lines 21-50). -/
def predict_rating (movie : Movie) (rated_movies : List Movie) : ℚ × ℚ :=
  if rated_movies.isEmpty then (7, 3/10)
  else
    let similar_ratings := similarRatings movie.genres rated_movies
    let pc : ℚ × ℚ :=
      if similar_ratings.isEmpty then
        let all_ratings := allRatings rated_movies
        ((if all_ratings.isEmpty then 7
          else all_ratings.sum / (all_ratings.length : ℚ)), 3/10)
      else
        (similar_ratings.sum / (similar_ratings.length : ℚ),
         min (9/10) ((similar_ratings.length : ℚ) / 5))
    (round1 pc.1, pc.2)

/-- Division with the Python ZeroDivisionError made explicit. -/
def checkedDiv (a b : ℚ) : Except String ℚ :=
  if b = 0 then Except.error "ZeroDivisionError" else Except.ok (a / b)

/-- predict_rating with every division routed through checkedDiv: the only
operations of the source that could raise are the two divisions (all field
reads are dict.get style or guarded). -/
def predict_rating_checked (movie : Movie) (rated_movies : List Movie) :
    Except String (ℚ × ℚ) :=
  if rated_movies.isEmpty then Except.ok (7, 3/10)
  else
    let similar_ratings := similarRatings movie.genres rated_movies
    if similar_ratings.isEmpty then
      let all_ratings := allRatings rated_movies
      if all_ratings.isEmpty then Except.ok (round1 7, 3/10)
      else do
        let m ← checkedDiv all_ratings.sum (all_ratings.length : ℚ)
        Except.ok (round1 m, 3/10)
    else do
      let m ← checkedDiv similar_ratings.sum (similar_ratings.length : ℚ)
      Except.ok (round1 m, min (9/10) ((similar_ratings.length : ℚ) / 5))

/-- RatingPredictionService.get_predictions_for_unrated_movies
(src/core/prediction_service.py, lines 52-74). -/
def get_predictions_for_unrated_movies (movies : List Movie) : List Prediction :=
  let rated_movies := movies.filter (fun m => m.rating.isSome)
  let unrated_movies := movies.filter (fun m => m.rating.isNone)
  if rated_movies.length < 2 then []
  else
    unrated_movies.map fun movie =>
      let pr := predict_rating movie rated_movies
      { title := movie.title
        year := movie.year
        predicted_rating := pr.1
        confidence := pr.2
        actual_tmdb_rating := movie.vote_average.getD 0
        genres := movie.genres }

/-! String helpers modelling the Python string operations used by the
recommendation service, written over the character list so that they
reduce in the kernel. -/

/-- Python str.strip() on a character list. -/
def trimChars (l : List Char) : List Char :=
  ((l.dropWhile Char.isWhitespace).reverse.dropWhile Char.isWhitespace).reverse

/-- Python title.lower().strip(), the normalized dedup key of the spec. -/
def normTitle (s : String) : String := ⟨trimChars (s.data.map Char.toLower)⟩

/-- Python s.lower() alone. -/
def lowerStr (s : String) : String := ⟨s.data.map Char.toLower⟩

/-- Python slicing s[:n]. -/
def strTake (s : String) (n : Nat) : String := ⟨s.data.take n⟩

/-- Python substring test: needle in hay. -/
def containsSub (needle : List Char) : List Char → Bool
  | [] => needle.isEmpty
  | c :: rest => needle.isPrefixOf (c :: rest) || containsSub needle rest

/-- Python keyword in overview (substring containment). -/
def strContains (hay needle : String) : Bool := containsSub needle.data hay.data

/-- Stable insertion of x in front of the first y with le x y. -/
def stableInsert (le : α → α → Bool) (x : α) : List α → List α
  | [] => [x]
  | y :: ys => if le x y then x :: y :: ys else y :: stableInsert le x ys

/-- Stable sort with respect to a total preorder test le, modelling the
Python built-in sorted (which is stable). -/
def stableSort (le : α → α → Bool) : List α → List α
  | [] => []
  | x :: xs => stableInsert le x (stableSort le xs)

/-! The external TMDB client, modelled as an oracle of pure functions.
The service methods take it as a parameter; the real client performs HTTP
requests (src/core/tmdb_client.py), which is outside the core logic. -/

/-- Oracle interface standing for TMDBClient: search_movie,
get_movie_recommendations, get_similar_movies and discover_movies
(the latter taking with_genres, page, sort_by, vote_average_gte,
vote_count_gte). -/
structure CatalogClient where
  search_movie : String → List Candidate
  get_movie_recommendations : Nat → Nat → List Candidate
  get_similar_movies : Nat → Nat → List Candidate
  discover_movies : List Nat → Nat → String → ℚ → Nat → List Candidate

/-- The search variations tried for a seed title (Seven vs Se7en, IT vs
It). -/
def searchVariations (t : String) : List String :=
  [t, t.replace "Seven" "Se7en", t.replace "IT" "It"]

/-- The movie-id selection loop of get_recommendations_for_movies: try
each variation; for the first one with results, prefer an exact release
year match when the seed has a year, else the first result.  A Python id
of 0 is falsy, so a year match with id 0 also falls back to the first
result; the result mirrors the movie_id variable at the end of the loop. -/
def pickMovieId (search : String → List Candidate) (year : String) :
    List String → Option Nat
  | [] => none
  | term :: rest =>
    match search term with
    | [] => pickMovieId search year rest
    | first :: others =>
      let byYear :=
        if year ≠ "" then
          (first :: others).find? (fun r => strTake r.release_date 4 == year)
        else none
      match byYear with
      | some r => if r.id ≠ 0 then some r.id else some first.id
      | none => some first.id

/-- The genre allow-list of get_recommendations_for_movies:
Horror, Thriller, Mystery. -/
def horror_genres : List Nat := [27, 53, 9648]

/-- Descending-by-rating comparison used to pick the top seeds. -/
def ratingDescLe (a b : Movie) : Bool :=
  decide (b.rating.getD 0 ≤ a.rating.getD 0)

/-- The deduplication loop at the end of get_recommendations_for_movies:
walk the accumulated pool, keep a title exactly once (tracking seen raw
titles), and stop as soon as limit results are collected. -/
def dedupLoop (limit : Nat) : List Candidate → List String → List Candidate → List Candidate
  | [], _, acc => acc.reverse
  | rec :: rest, seen, acc =>
    if seen.contains rec.title then dedupLoop limit rest seen acc
    else
      let acc2 := rec :: acc
      if limit ≤ acc2.length then acc2.reverse
      else dedupLoop limit rest (rec.title :: seen) acc2

/-- Seed selection of get_recommendations_for_movies: rated items with
rating at least 7, else any rated items. -/
def selectRatedSeeds (movies : List Movie) : List Movie :=
  let rated7 := movies.filter (fun m =>
    match m.rating with
    | some r => decide ((7 : ℚ) ≤ r)
    | none => false)
  if rated7.isEmpty then movies.filter (fun m => m.rating.isSome) else rated7

/-- The pool accumulated over the seeds in get_recommendations_for_movies:
per seed, resolve a catalog id, fetch 8 recommendations and 8 similar
items, and keep those in the horror/thriller/mystery allow-list. -/
def recommendationPool (client : CatalogClient) (top_movies : List Movie) :
    List Candidate :=
  top_movies.flatMap (fun movie =>
    match pickMovieId client.search_movie movie.year (searchVariations movie.title) with
    | none => []
    | some movie_id =>
      if movie_id ≠ 0 then
        let recs := client.get_movie_recommendations movie_id 8
        let similar := client.get_similar_movies movie_id 8
        (recs ++ similar).filter (fun rec =>
          rec.genre_ids.any (fun g => horror_genres.contains g))
      else [])

/-- MovieRecommendationService.get_recommendations_for_movies
(src/core/recommendation_service.py, lines 25-98).  The per-seed
try/except only guards client failures, which the pure oracle cannot
produce. -/
def get_recommendations_for_movies (client : CatalogClient) (movies : List Movie)
    (limit : Nat := 10) : List Candidate :=
  if (selectRatedSeeds movies).isEmpty then []
  else
    let top_movies := (stableSort ratingDescLe (selectRatedSeeds movies)).take 3
    dedupLoop limit (recommendationPool client top_movies) [] []

/-- The static genre-id-to-name table of _get_genre_names_for_movie. -/
def genre_map : List (Nat × String) :=
  [(27, "Horror"), (53, "Thriller"), (9648, "Mystery"), (18, "Drama"),
   (35, "Comedy"), (28, "Action"), (12, "Adventure"), (16, "Animation"),
   (80, "Crime"), (99, "Documentary"), (10751, "Family"), (14, "Fantasy"),
   (36, "History"), (10402, "Music"), (10749, "Romance"),
   (878, "Science Fiction"), (10770, "TV Movie"), (10752, "War"),
   (37, "Western")]

/-- MovieRecommendationService._get_genre_names_for_movie
(src/core/recommendation_service.py, lines 234-259): the comprehension
[genre_map.get(g, Unknown) for g in genre_ids if g in genre_map].
Note the membership filter, which discards ids outside the table before
the Unknown default could ever apply. -/
def get_genre_names_for_movie (movie : Candidate) : List String :=
  (movie.genre_ids.filter (fun gid => (genre_map.lookup gid).isSome)).map
    (fun gid => (genre_map.lookup gid).getD "Unknown")

/-- MovieRecommendationService.get_random_horror_movies
(src/core/recommendation_service.py, lines 100-139).  shuffle stands for
random.shuffle; watched_titles is the Python set of excluded titles. -/
def get_random_horror_movies (client : CatalogClient)
    (shuffle : List Candidate → List Candidate) (watched_titles : List String)
    (limit : Nat := 10) : List Candidate :=
  let pages_to_fetch := min 5 (max 2 (limit / 10))
  let all_random_movies := (List.range pages_to_fetch).flatMap (fun p =>
    let horror_movies := client.discover_movies [27] (p + 1) "popularity.desc" 5 50
    horror_movies.filterMap (fun movie =>
      if watched_titles.contains (normTitle movie.title) then none
      else some { movie with genre_names := get_genre_names_for_movie movie }))
  (shuffle all_random_movies).take limit

/-- A mood entry of the mood_config table of spin_for_mood_movie. -/
structure MoodConfig where
  keywords : List String
  genres : List Nat
  sort_preference : String
deriving DecidableEq

/-- The gory entry, which is also the fallback default. -/
def goryConfig : MoodConfig :=
  { keywords := ["blood", "gore", "violent", "brutal", "slasher", "torture"]
    genres := [27, 53]
    sort_preference := "popularity.desc" }

/-- The fixed mood configuration table of spin_for_mood_movie. -/
def mood_config : List (String × MoodConfig) :=
  [("gory", goryConfig),
   ("creepy",
    { keywords := ["psychological", "disturbing", "unsettling", "paranormal", "haunted"]
      genres := [27, 9648, 53]
      sort_preference := "vote_average.desc" }),
   ("mysterious",
    { keywords := ["mystery", "puzzle", "investigation", "detective", "supernatural"]
      genres := [9648, 27, 53]
      sort_preference := "vote_average.desc" }),
   ("jumpscare",
    { keywords := ["jump scare", "sudden", "startling", "scary", "frightening"]
      genres := [27, 53]
      sort_preference := "popularity.desc" }),
   ("body-horror",
    { keywords := ["body horror", "transformation", "mutation", "grotesque", "flesh",
                   "visceral", "anatomical"]
      genres := [27, 878, 53]
      sort_preference := "vote_average.desc" }),
   ("paranoid",
    { keywords := ["paranoid", "conspiracy", "surveillance", "persecution", "madness",
                   "delusion", "reality"]
      genres := [27, 53, 9648]
      sort_preference := "vote_average.desc" })]

/-- Descending comparison on (mood_score, vote_average), the sort key of
the shortlist in spin_for_mood_movie. -/
def moodDescLe (a b : Candidate) : Bool :=
  decide (b.mood_score < a.mood_score) ||
    (b.mood_score == a.mood_score &&
      decide (b.vote_average.getD 0 ≤ a.vote_average.getD 0))

/-- The body of spin_for_mood_movie once the configuration is fixed:
three discover pages, keyword/score filter, shortlist, random choice.
choice stands for random.choice (guarded: it is only consulted on a
non-empty pool). -/
def spin_with_config (client : CatalogClient) (choice : List Candidate → Candidate)
    (config : MoodConfig) (watched_titles : List String) : Option Candidate :=
  let all_mood_movies := (List.range 3).flatMap (fun p =>
    let movies := client.discover_movies config.genres (p + 1)
      config.sort_preference (11/2) 100
    movies.filterMap (fun movie =>
      if watched_titles.contains (normTitle movie.title) then none
      else
        let overview := lowerStr movie.overview
        let mood_score := (config.keywords.filter (fun k => strContains overview k)).length
        if 0 < mood_score ∨ (7 : ℚ) ≤ movie.vote_average.getD 0 then
          some { movie with
                 genre_names := get_genre_names_for_movie movie
                 mood_score := mood_score }
        else none))
  if all_mood_movies.isEmpty then none
  else
    let sorted := stableSort moodDescLe all_mood_movies
    let top_candidates := sorted.take (max 5 (all_mood_movies.length / 5))
    some (choice top_candidates)

/-- MovieRecommendationService.spin_for_mood_movie
(src/core/recommendation_service.py, lines 141-232):
mood_config.get(mood, mood_config[gory]) then the fixed-configuration
body. -/
def spin_for_mood_movie (client : CatalogClient) (choice : List Candidate → Candidate)
    (mood : String) (watched_titles : List String) : Option Candidate :=
  spin_with_config client choice ((mood_config.lookup mood).getD goryConfig) watched_titles

/-! Concrete data used to instantiate theorems and to exhibit
counterexamples. -/

/-- A client returning two recommendations whose titles differ only by
case and trailing whitespace. -/
def exClientC2 : CatalogClient :=
  { search_movie := fun _ => [{ id := 1, title := "Seed" }]
    get_movie_recommendations := fun _ _ =>
      [{ id := 2, title := "It", genre_ids := [27] },
       { id := 3, title := "it ", genre_ids := [27] }]
    get_similar_movies := fun _ _ => []
    discover_movies := fun _ _ _ _ _ => [] }

/-- A one-seed history for the recommendation counterexample. -/
def exMoviesC2 : List Movie := [{ title := "Seed", rating := some 8 }]

/-- A client whose discover endpoint always returns one candidate titled
It. -/
def exClientC7 : CatalogClient :=
  { search_movie := fun _ => []
    get_movie_recommendations := fun _ _ => []
    get_similar_movies := fun _ _ => []
    discover_movies := fun _ _ _ _ _ => [{ id := 9, title := "It" }] }

/-- The candidate produced by exClientC7 (genre_names resolves to []). -/
def candIt : Candidate := { id := 9, title := "It" }

/-- A client all of whose endpoints return nothing. -/
def trivialClient : CatalogClient :=
  { search_movie := fun _ => []
    get_movie_recommendations := fun _ _ => []
    get_similar_movies := fun _ _ => []
    discover_movies := fun _ _ _ _ _ => [] }

/-- A deterministic stand-in for random.choice. -/
def defaultChoice : List Candidate → Candidate := fun _ => {}

/-- The history items that would contribute to similar_ratings: rating
present and genre overlap with the target. -/
def overlapItems (movieGenres : List String) (hist : List Movie) : List Movie :=
  hist.filter (fun m =>
    m.rating.isSome && decide (0 < genreOverlapCount movieGenres m.genres))

/-- The movie and rated history of the worked spec example with genre
overlap. -/
def exMovieC1 : Movie := { title := "x", genres := ["Horror"] }

def exHistC1 : List Movie :=
  [{ title := "a", rating := some 8, genres := ["Horror", "Thriller"] }]

/-- The rated history of the worked spec example without genre overlap. -/
def exHistC5 : List Movie :=
  [{ title := "a", rating := some 6, genres := ["Drama"] },
   { title := "b", rating := some 10, genres := ["Comedy"] }]

/-! Helper lemmas. -/

theorem isEmpty_eq_false_of_ne {α : Type} {l : List α} (h : l ≠ []) :
    l.isEmpty = false := by
  cases l with
  | nil => exact absurd rfl h
  | cons a t => rfl

theorem ne_nil_of_isEmpty_ne {α : Type} {l : List α} (h : ¬ l.isEmpty = true) :
    l ≠ [] := by
  cases l with
  | nil => exact absurd rfl h
  | cons a t => simp

theorem round1_seven : round1 7 = 7 := by decide

theorem similarRatings_eq_overlapItems (g : List String) (l : List Movie) :
    similarRatings g l = (overlapItems g l).filterMap (fun m => m.rating) := by
  induction l with
  | nil => rfl
  | cons m rest ih =>
    simp only [similarRatings, overlapItems] at ih ⊢
    rw [List.filter_cons]
    cases hm : m.rating with
    | none =>
      simp only [List.filterMap_cons, hm, Option.isSome_none, Bool.false_and,
        Bool.false_eq_true, if_false]
      exact ih
    | some r =>
      by_cases hov : 0 < genreOverlapCount g m.genres
      · have hc : ((some r : Option ℚ).isSome &&
            decide (0 < genreOverlapCount g m.genres)) = true := by
          simp [hov]
        rw [if_pos hc]
        simp only [List.filterMap_cons, hm, if_pos hov]
        rw [ih]
      · have hc : ¬ (((some r : Option ℚ).isSome &&
            decide (0 < genreOverlapCount g m.genres)) = true) := by
          simp [hov]
        rw [if_neg hc]
        simp only [List.filterMap_cons, hm, if_neg hov]
        exact ih

theorem filterMap_rating_length (l : List Movie)
    (h : ∀ m ∈ l, m.rating.isSome = true) :
    (l.filterMap (fun m => m.rating)).length = l.length := by
  induction l with
  | nil => rfl
  | cons m rest ih =>
    obtain ⟨r, hr⟩ := Option.isSome_iff_exists.mp (h m (List.mem_cons_self m rest))
    simp [List.filterMap_cons, hr, ih (fun x hx => h x (List.mem_cons_of_mem _ hx))]

theorem overlapItems_all_isSome (g : List String) (l : List Movie) :
    ∀ m ∈ overlapItems g l, m.rating.isSome = true := by
  intro m hm
  have h2 := (List.mem_filter.mp hm).2
  simp only [Bool.and_eq_true] at h2
  exact h2.1

theorem similarRatings_length (g : List String) (l : List Movie) :
    (similarRatings g l).length = (overlapItems g l).length := by
  rw [similarRatings_eq_overlapItems]
  exact filterMap_rating_length _ (overlapItems_all_isSome g l)

theorem similarRatings_nil_iff (g : List String) (l : List Movie) :
    similarRatings g l = [] ↔ overlapItems g l = [] := by
  constructor
  · intro h
    have h2 := similarRatings_length g l
    rw [h] at h2
    exact List.length_eq_zero.mp h2.symm
  · intro h
    rw [similarRatings_eq_overlapItems, h]
    rfl

theorem similarRatings_filter_isSome (g : List String) (l : List Movie) :
    similarRatings g (l.filter (fun m => m.rating.isSome)) = similarRatings g l := by
  induction l with
  | nil => rfl
  | cons m rest ih =>
    simp only [similarRatings] at ih ⊢
    rw [List.filter_cons]
    cases hm : m.rating with
    | none =>
      simp only [hm, Option.isSome_none, Bool.false_eq_true, if_false,
        List.filterMap_cons]
      exact ih
    | some r =>
      simp only [hm, Option.isSome_some, if_true, List.filterMap_cons]
      by_cases hov : 0 < genreOverlapCount g m.genres
      · simp only [if_pos hov]
        rw [ih]
      · simp only [if_neg hov]
        exact ih

theorem allRatings_filter_isSome (l : List Movie) :
    allRatings (l.filter (fun m => m.rating.isSome)) = allRatings l := by
  induction l with
  | nil => rfl
  | cons m rest ih =>
    simp only [allRatings] at ih ⊢
    rw [List.filter_cons]
    cases hm : m.rating with
    | none =>
      simp only [hm, Option.isSome_none, Bool.false_eq_true, if_false,
        List.filterMap_cons]
      exact ih
    | some r =>
      simp only [hm, Option.isSome_some, if_true, List.filterMap_cons]
      rw [ih]

theorem mem_similarRatings {g : List String} {l : List Movie} {x : ℚ}
    (h : x ∈ similarRatings g l) : ∃ m ∈ l, m.rating = some x := by
  simp only [similarRatings, List.mem_filterMap] at h
  obtain ⟨m, hm, he⟩ := h
  refine ⟨m, hm, ?_⟩
  cases hr : m.rating with
  | none =>
    rw [hr] at he
    exact Option.noConfusion he
  | some r =>
    rw [hr] at he
    have he2 : (if 0 < genreOverlapCount g m.genres then some r else none) = some x := he
    by_cases hov : 0 < genreOverlapCount g m.genres
    · rw [if_pos hov] at he2
      exact he2
    · rw [if_neg hov] at he2
      exact Option.noConfusion he2

theorem mem_allRatings {l : List Movie} {x : ℚ} (h : x ∈ allRatings l) :
    ∃ m ∈ l, m.rating = some x := by
  simpa only [allRatings, List.mem_filterMap] using h

theorem rat_floor_eq (q : ℚ) : Rat.floor q = ⌊q⌋ := by
  rw [Rat.floor_def' q, ← Rat.floor_def]

theorem pyRound_ge {q : ℚ} {lo : ℤ} (h : (lo : ℚ) ≤ q) : lo ≤ pyRound q := by
  have hf : lo ≤ ⌊q⌋ := Int.le_floor.mpr h
  unfold pyRound
  rw [rat_floor_eq]
  split_ifs <;> omega

theorem pyRound_le {q : ℚ} {hi : ℤ} (h : q ≤ (hi : ℚ)) : pyRound q ≤ hi := by
  have hf : ⌊q⌋ ≤ hi := by
    have := Int.floor_le_floor h
    rwa [Int.floor_intCast] at this
  unfold pyRound
  rw [rat_floor_eq]
  split_ifs with hr1 hr2 hpar
  · exact hf
  · have hlt : ⌊q⌋ < hi := by
      rcases lt_or_eq_of_le hf with hlt | heq
      · exact hlt
      · exfalso
        rw [heq] at hr2
        have : ((hi : ℚ) + 1/2) < q := by linarith
        linarith
    omega
  · exact hf
  · have hr : q - ((⌊q⌋ : ℤ) : ℚ) = 1/2 := le_antisymm (not_lt.mp hr2) (not_lt.mp hr1)
    have hlt : ⌊q⌋ < hi := by
      rcases lt_or_eq_of_le hf with hlt | heq
      · exact hlt
      · exfalso
        rw [heq] at hr
        have : q = (hi : ℚ) + 1/2 := by linarith
        linarith
    omega

theorem round1_bounds {q : ℚ} (h1 : 1 ≤ q) (h2 : q ≤ 10) :
    1 ≤ round1 q ∧ round1 q ≤ 10 := by
  have hlo : ((10 : ℤ) : ℚ) ≤ 10 * q := by push_cast; linarith
  have hhi : 10 * q ≤ ((100 : ℤ) : ℚ) := by push_cast; linarith
  have h3 := pyRound_ge hlo
  have h4 := pyRound_le hhi
  unfold round1
  constructor
  · have h5 : ((10 : ℤ) : ℚ) ≤ (pyRound (10 * q) : ℚ) := by exact_mod_cast h3
    push_cast at h5
    linarith
  · have h5 : ((pyRound (10 * q)) : ℚ) ≤ ((100 : ℤ) : ℚ) := by exact_mod_cast h4
    push_cast at h5
    linarith

theorem list_mean_bounds (l : List ℚ) (hne : l ≠ [])
    (h : ∀ x ∈ l, 1 ≤ x ∧ x ≤ 10) :
    1 ≤ l.sum / (l.length : ℚ) ∧ l.sum / (l.length : ℚ) ≤ 10 := by
  have hpos : 0 < (l.length : ℚ) := by
    exact_mod_cast List.length_pos.mpr hne
  have hsle : l.sum ≤ l.length • (10 : ℚ) :=
    List.sum_le_card_nsmul l 10 (fun x hx => (h x hx).2)
  have hsge : l.length • (1 : ℚ) ≤ l.sum :=
    List.card_nsmul_le_sum l 1 (fun x hx => (h x hx).1)
  rw [nsmul_eq_mul] at hsle hsge
  constructor
  · rw [le_div_iff hpos]
    linarith
  · rw [div_le_iff hpos]
    linarith

theorem lookup_none_of_not_mem_keys {α β : Type} [BEq α] [LawfulBEq α]
    (l : List (α × β)) (k : α) (h : k ∉ l.map Prod.fst) : l.lookup k = none := by
  induction l with
  | nil => rfl
  | cons p rest ih =>
    obtain ⟨a, b⟩ := p
    have h1 : k ≠ a := by
      intro e
      exact h (by simp [e])
    have h2 : k ∉ rest.map Prod.fst := fun hm => h (by simp [hm])
    simp only [List.lookup]
    rw [beq_eq_false_iff_ne.mpr h1]
    exact ih h2

theorem dedupLoop_titles_nodup (limit : Nat) (l : List Candidate) :
    ∀ (seen : List String) (acc : List Candidate),
      (∀ t ∈ acc.map (fun c => c.title), t ∈ seen) →
      (acc.map (fun c => c.title)).Nodup →
      ((dedupLoop limit l seen acc).map (fun c => c.title)).Nodup := by
  induction l with
  | nil =>
    intro seen acc _ hnd
    simpa [dedupLoop] using hnd
  | cons c rest ih =>
    intro seen acc hsub hnd
    simp only [dedupLoop]
    by_cases hmem : seen.contains c.title = true
    · rw [if_pos hmem]
      exact ih seen acc hsub hnd
    · have hmem2 : c.title ∉ seen := by
        intro hc
        exact hmem (List.elem_iff.mpr hc)
      have hnotacc : c.title ∉ acc.map (fun c => c.title) := fun hc => hmem2 (hsub _ hc)
      rw [if_neg hmem]
      by_cases hlim : limit ≤ (c :: acc).length
      · rw [if_pos hlim, List.map_reverse, List.nodup_reverse, List.map_cons]
        exact List.nodup_cons.mpr ⟨hnotacc, hnd⟩
      · rw [if_neg hlim]
        refine ih _ _ ?_ ?_
        · intro t ht
          rw [List.map_cons] at ht
          rcases List.mem_cons.mp ht with h | h
          · exact List.mem_cons.mpr (Or.inl h)
          · exact List.mem_cons.mpr (Or.inr (hsub _ h))
        · rw [List.map_cons]
          exact List.nodup_cons.mpr ⟨hnotacc, hnd⟩

/-! Claim theorems. -/

/-- C1: with a non-empty rated history in which at least one rated item
overlaps the target movie in genres, predict_rating returns the rounded
mean of exactly the ratings of the overlapping items, and confidence
min(0.9, count/5). -/
theorem predict_rating_overlap_mean (movie : Movie) (hist : List Movie)
    (h1 : hist ≠ []) (h2 : overlapItems movie.genres hist ≠ []) :
    predict_rating movie hist =
      (round1 (((overlapItems movie.genres hist).filterMap (fun m => m.rating)).sum /
          ((overlapItems movie.genres hist).length : ℚ)),
       min (9/10) (((overlapItems movie.genres hist).length : ℚ) / 5)) := by
  have hs : similarRatings movie.genres hist ≠ [] :=
    fun h => h2 ((similarRatings_nil_iff _ _).mp h)
  have e0 : hist.isEmpty = false := isEmpty_eq_false_of_ne h1
  have e1 : (similarRatings movie.genres hist).isEmpty = false := isEmpty_eq_false_of_ne hs
  simp only [predict_rating, e0, e1, Bool.false_eq_true, if_false]
  rw [similarRatings_length, similarRatings_eq_overlapItems]

theorem predict_rating_overlap_mean_witness :
    exHistC1 ≠ [] ∧ overlapItems exMovieC1.genres exHistC1 ≠ [] ∧
      predict_rating exMovieC1 exHistC1 = (8, 1/5) := by
  refine ⟨by decide, by decide, ?_⟩
  rw [predict_rating_overlap_mean exMovieC1 exHistC1 (by decide) (by decide)]
  decide

/-- C5: an empty history gives the neutral prior (7.0, 0.3); a non-empty
history with no genre overlap gives the rounded mean of all rated
ratings (7.0 when none are rated) with confidence 0.3. -/
theorem predict_rating_fallback (movie : Movie) (hist : List Movie) :
    (hist = [] → predict_rating movie hist = (7, 3/10)) ∧
    (hist ≠ [] → overlapItems movie.genres hist = [] →
      predict_rating movie hist =
        ((if allRatings hist = [] then (7 : ℚ)
          else round1 ((allRatings hist).sum / ((allRatings hist).length : ℚ))),
         3/10)) := by
  constructor
  · intro h
    rw [h]
    rfl
  · intro h0 hov
    have hs : similarRatings movie.genres hist = [] := (similarRatings_nil_iff _ _).mpr hov
    have e0 : hist.isEmpty = false := isEmpty_eq_false_of_ne h0
    simp only [predict_rating, e0, Bool.false_eq_true, if_false, hs, List.isEmpty_nil,
      if_true]
    by_cases ha : allRatings hist = []
    · simp only [ha, List.isEmpty_nil, if_true, if_pos ha]
      rw [round1_seven]
    · have ea : (allRatings hist).isEmpty = false := isEmpty_eq_false_of_ne ha
      simp only [ea, Bool.false_eq_true, if_false, if_neg ha]

theorem predict_rating_fallback_witness :
    predict_rating exMovieC1 [] = (7, 3/10) ∧
    (exHistC5 ≠ [] ∧ overlapItems exMovieC1.genres exHistC5 = [] ∧
      predict_rating exMovieC1 exHistC5 = (8, 3/10)) := by
  refine ⟨(predict_rating_fallback exMovieC1 []).1 rfl, by decide, by decide, ?_⟩
  rw [(predict_rating_fallback exMovieC1 exHistC5).2 (by decide) (by decide)]
  decide

/-- C6: predict_rating, with its two divisions replaced by division
checked against a zero denominator, always succeeds and returns the same
pair: the function has no error path (the denominators are lengths of
lists that the branch conditions force to be non-empty) and, being a
pure function of its arguments, has no side effects. -/
theorem predict_rating_total (movie : Movie) (hist : List Movie) :
    predict_rating_checked movie hist = Except.ok (predict_rating movie hist) := by
  simp only [predict_rating_checked, predict_rating]
  by_cases h0 : hist.isEmpty = true
  · rw [if_pos h0, if_pos h0]
  · rw [if_neg h0, if_neg h0]
    by_cases hs : (similarRatings movie.genres hist).isEmpty = true
    · rw [if_pos hs]
      by_cases ha : (allRatings hist).isEmpty = true
      · rw [if_pos ha]
        simp only [hs, ha, if_true, if_pos hs, if_pos ha]
      · have hne : allRatings hist ≠ [] := ne_nil_of_isEmpty_ne ha
        have hlen : ((allRatings hist).length : ℚ) ≠ 0 := by
          have hp : 0 < (allRatings hist).length := List.length_pos.mpr hne
          exact_mod_cast Nat.pos_iff_ne_zero.mp hp
        rw [if_neg ha]
        simp only [checkedDiv, hlen, if_false, hs, ha, if_true, if_pos hs, if_neg ha]
        rfl
    · have hne : similarRatings movie.genres hist ≠ [] := ne_nil_of_isEmpty_ne hs
      have hlen : ((similarRatings movie.genres hist).length : ℚ) ≠ 0 := by
        have hp : 0 < (similarRatings movie.genres hist).length := List.length_pos.mpr hne
        exact_mod_cast Nat.pos_iff_ne_zero.mp hp
      rw [if_neg hs]
      simp only [checkedDiv, hlen, if_false, hs, if_neg hs]
      rfl

/-- C8: when every present rating of the history lies in [1, 10], the
predicted rating lies in [1, 10] and is an integer number of tenths
(one-decimal precision), and the confidence lies in [0, 1]. -/
theorem predict_rating_range (movie : Movie) (hist : List Movie)
    (hb : ∀ m ∈ hist, ∀ r, m.rating = some r → 1 ≤ r ∧ r ≤ 10) :
    1 ≤ (predict_rating movie hist).1 ∧ (predict_rating movie hist).1 ≤ 10 ∧
      0 ≤ (predict_rating movie hist).2 ∧ (predict_rating movie hist).2 ≤ 1 ∧
      ∃ k : ℤ, (predict_rating movie hist).1 = (k : ℚ) / 10 := by
  by_cases h0 : hist.isEmpty = true
  · simp only [predict_rating, if_pos h0]
    exact ⟨by norm_num, by norm_num, by norm_num, by norm_num, 70, by norm_num⟩
  · simp only [predict_rating, if_neg h0]
    by_cases hs : (similarRatings movie.genres hist).isEmpty = true
    · by_cases ha : (allRatings hist).isEmpty = true
      · simp only [if_pos hs, if_pos ha]
        rw [round1_seven]
        exact ⟨by norm_num, by norm_num, by norm_num, by norm_num, 70, by norm_num⟩
      · simp only [if_pos hs, if_neg ha]
        have hne : allRatings hist ≠ [] := ne_nil_of_isEmpty_ne ha
        have hmb := list_mean_bounds (allRatings hist) hne (fun x hx => by
          obtain ⟨m, hm, hr⟩ := mem_allRatings hx
          exact hb m hm x hr)
        have hr1 := round1_bounds hmb.1 hmb.2
        exact ⟨hr1.1, hr1.2, by norm_num, by norm_num, _, rfl⟩
    · simp only [if_neg hs]
      have hne : similarRatings movie.genres hist ≠ [] := ne_nil_of_isEmpty_ne hs
      have hmb := list_mean_bounds _ hne (fun x hx => by
        obtain ⟨m, hm, hr⟩ := mem_similarRatings hx
        exact hb m hm x hr)
      have hr1 := round1_bounds hmb.1 hmb.2
      refine ⟨hr1.1, hr1.2, ?_, ?_, _, rfl⟩
      · exact le_min (by norm_num) (by positivity)
      · exact le_trans (min_le_left _ _) (by norm_num)

theorem predict_rating_range_witness :
    1 ≤ (predict_rating exMovieC1 exHistC1).1 ∧
      (predict_rating exMovieC1 exHistC1).1 ≤ 10 ∧
      0 ≤ (predict_rating exMovieC1 exHistC1).2 ∧
      (predict_rating exMovieC1 exHistC1).2 ≤ 1 ∧
      ∃ k : ℤ, (predict_rating exMovieC1 exHistC1).1 = (k : ℚ) / 10 :=
  predict_rating_range exMovieC1 exHistC1 (by
    intro m hm r hr
    rcases List.mem_cons.mp hm with h | h
    · subst h
      have h8 : (8 : ℚ) = r := Option.some.inj hr
      rw [← h8]
      exact ⟨by norm_num, by norm_num⟩
    · exact absurd h (List.not_mem_nil m))

/-- C10: history entries whose rating is absent never influence the
prediction: predict_rating gives the same answer on the full history as
on its rated sublist. -/
theorem predict_rating_ignores_unrated (movie : Movie) (hist : List Movie) :
    predict_rating movie hist =
      predict_rating movie (hist.filter (fun m => m.rating.isSome)) := by
  by_cases h1 : hist.filter (fun m => m.rating.isSome) = []
  · have hs : similarRatings movie.genres hist = [] := by
      rw [← similarRatings_filter_isSome movie.genres hist, h1]
      rfl
    have ha : allRatings hist = [] := by
      rw [← allRatings_filter_isSome hist, h1]
      rfl
    by_cases h0 : hist = []
    · rw [h0]
      rfl
    · have e0 : hist.isEmpty = false := isEmpty_eq_false_of_ne h0
      simp only [predict_rating, e0, Bool.false_eq_true, if_false, hs, ha, h1,
        List.isEmpty_nil, if_true]
      rw [round1_seven]
  · have h0 : hist ≠ [] := fun h => h1 (by rw [h]; rfl)
    have e0 : hist.isEmpty = false := isEmpty_eq_false_of_ne h0
    have e1 : (hist.filter (fun m => m.rating.isSome)).isEmpty = false :=
      isEmpty_eq_false_of_ne h1
    simp only [predict_rating, similarRatings_filter_isSome, allRatings_filter_isSome,
      e0, e1, Bool.false_eq_true, if_false]

/-- C2 (counterexample): on a client returning the titles It and
(it + space), recommend keeps both, so the output does contain two
results with the same case/whitespace-normalized title. -/
theorem recommend_norm_dedup_cex :
    ¬ (((get_recommendations_for_movies exClientC2 exMoviesC2 10).map
        (fun c => normTitle c.title)).Nodup) := by decide

/-- C2 (amended): the list returned by get_recommendations_for_movies
never contains two results with exactly equal raw titles (the code
deduplicates on the unnormalized title). -/
theorem recommend_titles_nodup (client : CatalogClient) (movies : List Movie)
    (limit : Nat) :
    ((get_recommendations_for_movies client movies limit).map
      (fun c => c.title)).Nodup := by
  unfold get_recommendations_for_movies
  split
  · simp
  · exact dedupLoop_titles_nodup _ _ _ _ (by simp) (by simp)

/-- C3 (code evaluation): _get_genre_names_for_movie silently drops a
genre id that is not in the static table instead of resolving it to the
sentinel Unknown: on genre_ids = [27, 999] it returns only [Horror],
and on [999] it returns [], not [Unknown]. -/
theorem genre_names_drops_unknown_ids :
    get_genre_names_for_movie { genre_ids := [27, 999] } = ["Horror"] ∧
    get_genre_names_for_movie { genre_ids := [999] } = [] := by decide

/-- C4: get_predictions_for_unrated_movies returns the empty list
whenever fewer than 2 items of the input carry a present rating, however
many unrated items there are. -/
theorem batch_predict_insufficient_rated (movies : List Movie)
    (h : movies.countP (fun m => m.rating.isSome) < 2) :
    get_predictions_for_unrated_movies movies = [] := by
  have h2 : (movies.filter (fun m => m.rating.isSome)).length < 2 := by
    rwa [← List.countP_eq_length_filter]
  simp [get_predictions_for_unrated_movies, if_pos h2]

theorem batch_predict_insufficient_rated_witness :
    ([({ title := "a", rating := some 6 } : Movie), { title := "b" },
      { title := "c" }].countP (fun m => m.rating.isSome) < 2) ∧
    get_predictions_for_unrated_movies
      [{ title := "a", rating := some 6 }, { title := "b" }, { title := "c" }] = [] :=
  ⟨by decide, batch_predict_insufficient_rated _ (by decide)⟩

/-- C9: a mood label outside the configuration table makes
spin_for_mood_movie behave exactly as with the default mood gory. -/
theorem spin_unknown_mood_default (client : CatalogClient)
    (choice : List Candidate → Candidate) (mood : String)
    (watched_titles : List String) (h : mood ∉ mood_config.map Prod.fst) :
    spin_for_mood_movie client choice mood watched_titles =
      spin_for_mood_movie client choice "gory" watched_titles := by
  unfold spin_for_mood_movie
  rw [lookup_none_of_not_mem_keys _ _ h]
  rfl

/-- C7 (counterexample): the exclusion test is plain membership of the
lowercased, trimmed candidate title; with excludeTitles = [IT] (upper
case) the candidate It is returned even though its title is present in
the excluded set under case-insensitive comparison. -/
theorem discover_ci_exclusion_cex :
    ¬ (∀ c ∈ get_random_horror_movies exClientC7 id ["IT"] 10,
        ∀ w ∈ ["IT"], lowerStr c.title ≠ lowerStr w) := by decide

/-- C7 (amended): whenever the injected shuffle only permutes its input,
no candidate returned by get_random_horror_movies has a lowercased,
whitespace-trimmed title that is an element of the excluded-titles set
(the caller is expected to pass the set already normalized). -/
theorem discover_excludes_normalized (client : CatalogClient)
    (shuffle : List Candidate → List Candidate) (watched_titles : List String)
    (limit : Nat)
    (hsh : ∀ (l : List Candidate) (x : Candidate), x ∈ shuffle l → x ∈ l) :
    ∀ c ∈ get_random_horror_movies client shuffle watched_titles limit,
      normTitle c.title ∉ watched_titles := by
  intro c hc hwmem
  simp only [get_random_horror_movies] at hc
  have hc2 := List.take_subset _ _ hc
  have hc3 := hsh _ _ hc2
  rw [List.mem_flatMap] at hc3
  obtain ⟨p, _, hcp⟩ := hc3
  rw [List.mem_filterMap] at hcp
  obtain ⟨m, _, hsome⟩ := hcp
  by_cases hw : watched_titles.contains (normTitle m.title) = true
  · rw [if_pos hw] at hsome
    exact Option.noConfusion hsome
  · rw [if_neg hw] at hsome
    have he : c.title = m.title := by
      have := Option.some.inj hsome
      rw [← this]
    exact hw (List.elem_iff.mpr (he ▸ hwmem))

theorem discover_excludes_normalized_witness :
    normTitle candIt.title ∉ ["foo"] :=
  discover_excludes_normalized exClientC7 id ["foo"] 10 (fun _ _ h => h) candIt
    (by decide)

theorem spin_unknown_mood_default_witness :
    ("zzz" ∉ mood_config.map Prod.fst) ∧
    spin_for_mood_movie trivialClient defaultChoice "zzz" [] =
      spin_for_mood_movie trivialClient defaultChoice "gory" [] :=
  ⟨by decide, spin_unknown_mood_default trivialClient defaultChoice "zzz" [] (by decide)⟩

end

end HorrorGen
